import Mathlib

/-!
Verification of the binary protocol layer of the evernode client library
(`src/state-helpers.js`, `src/util-helpers.js`, `src/clients/tenant-client.js`).

Byte buffers are modelled as `List Nat` whose entries are bytes (`< 256`);
reads that Node's `Buffer` would throw a `RangeError` on are `Option`/`Except`
failures.  External collaborators that are not part of this repository
(the ripple address codec, the XFL scaled-decimal codec, `sha512`) are
passed in as function parameters.  Constants that live in the repository's
`evernode-common.js` (not included in the sources) are modelled from the
spec where their exact value matters and documented as such.
-/

namespace Evernode

/-! ## Byte-buffer primitives (Node `Buffer` semantics) -/

/-- Value of one hex digit, accepting both cases, as Node's hex decoder does. -/
def hexDigitVal? (c : Char) : Option Nat :=
  if '0' ≤ c ∧ c ≤ '9' then some (c.toNat - '0'.toNat)
  else if 'a' ≤ c ∧ c ≤ 'f' then some (c.toNat - 'a'.toNat + 10)
  else if 'A' ≤ c ∧ c ≤ 'F' then some (c.toNat - 'A'.toNat + 10)
  else none

/-- `Buffer.from(s, 'hex')`: decode hex digit pairs, stopping at the first
pair that is not two valid hex digits (Node truncates there). -/
def hexDecodeChars : List Char → List Nat
  | c1 :: c2 :: rest =>
    match hexDigitVal? c1, hexDigitVal? c2 with
    | some h, some l => (h * 16 + l) :: hexDecodeChars rest
    | _, _ => []
  | _ => []

def hexDecode (s : String) : List Nat := hexDecodeChars s.data

/-- Lower-case hex digit for a value `< 16` (Node's `toString('hex')`). -/
def hexDigitLower (n : Nat) : Char :=
  if n < 10 then Char.ofNat ('0'.toNat + n) else Char.ofNat ('a'.toNat + n - 10)

/-- Upper-case hex digit for a value `< 16`. -/
def hexDigitUpper (n : Nat) : Char :=
  if n < 10 then Char.ofNat ('0'.toNat + n) else Char.ofNat ('A'.toNat + n - 10)

/-- `buf.toString('hex')` over a byte list: two lower-case digits per byte. -/
def bytesToHexChars : List Nat → List Char
  | [] => []
  | b :: rest => hexDigitLower (b % 256 / 16) :: hexDigitLower (b % 256 % 16) :: bytesToHexChars rest

def bytesToHex (l : List Nat) : String := String.mk (bytesToHexChars l)

/-- Upper-case variant, used to state what `toString('hex').toUpperCase()` yields. -/
def bytesToHexUpperChars : List Nat → List Char
  | [] => []
  | b :: rest => hexDigitUpper (b % 256 / 16) :: hexDigitUpper (b % 256 % 16) :: bytesToHexUpperChars rest

def bytesToHexUpper (l : List Nat) : String := String.mk (bytesToHexUpperChars l)

/-- JS `String.prototype.toUpperCase` (ASCII content only is exercised here). -/
def jsToUpperCase (s : String) : String := String.mk (s.data.map Char.toUpper)

/-- `buf.slice(start, end)`: clamped, never throws. -/
def bufSlice (b : List Nat) (s e : Nat) : List Nat := (b.take e).drop s

/-- Byte stored at index `i` (0 beyond the end; reads below guard the length). -/
def byteAt (b : List Nat) (i : Nat) : Nat := (b.getD i 0) % 256

/-- `buf.readUInt8(off)`: throws (here `none`) unless `off + 1 ≤ length`. -/
def readUInt8 (b : List Nat) (off : Nat) : Option Nat :=
  if off + 1 ≤ b.length then some (byteAt b off) else none

/-- `buf.readUInt16BE(off)`. -/
def readUInt16BE (b : List Nat) (off : Nat) : Option Nat :=
  if off + 2 ≤ b.length then some (byteAt b off * 256 + byteAt b (off + 1)) else none

/-- `buf.readUInt32BE(off)`. -/
def readUInt32BE (b : List Nat) (off : Nat) : Option Nat :=
  if off + 4 ≤ b.length then
    some (byteAt b off * 2 ^ 24 + byteAt b (off + 1) * 2 ^ 16 +
      byteAt b (off + 2) * 2 ^ 8 + byteAt b (off + 3))
  else none

/-- The big-endian value of the 8 bytes at `off` (no bounds check). -/
def be64At (b : List Nat) (off : Nat) : Nat :=
  byteAt b off * 2 ^ 56 + byteAt b (off + 1) * 2 ^ 48 + byteAt b (off + 2) * 2 ^ 40 +
  byteAt b (off + 3) * 2 ^ 32 + byteAt b (off + 4) * 2 ^ 24 + byteAt b (off + 5) * 2 ^ 16 +
  byteAt b (off + 6) * 2 ^ 8 + byteAt b (off + 7)

/-- `buf.readBigUInt64BE(off)` (the surrounding `Number(...)` coercion is
modelled as the identity on the natural value). -/
def readBigUInt64BE (b : List Nat) (off : Nat) : Option Nat :=
  if off + 8 ≤ b.length then some (be64At b off) else none

/-- `buf.readBigInt64BE(off)`: two's-complement signed reading. -/
def readBigInt64BE (b : List Nat) (off : Nat) : Option Int :=
  if off + 8 ≤ b.length then
    some (if be64At b off < 2 ^ 63 then (be64At b off : Int) else (be64At b off : Int) - 2 ^ 64)
  else none

/-- `a.compare(b)`: lexicographic byte comparison returning -1/0/1. -/
def bufCompare : List Nat → List Nat → Int
  | [], [] => 0
  | [], _ :: _ => -1
  | _ :: _, [] => 1
  | a :: as, b :: bs =>
    if a % 256 < b % 256 then -1
    else if b % 256 < a % 256 then 1
    else bufCompare as bs

/-- `source.copy(target, targetStart, sourceStart, sourceEnd)`: copy as many
bytes as fit, returning the modified target. -/
def bufCopy (source target : List Nat) (targetStart sourceStart sourceEnd : Nat) : List Nat :=
  let src := bufSlice source sourceStart sourceEnd
  let n := min src.length (target.length - targetStart)
  target.take targetStart ++ src.take n ++ target.drop (targetStart + n)

/-- `buf.toString()` for the ASCII payloads exercised here: one char per byte. -/
def bytesToString (l : List Nat) : String := String.mk (l.map (fun b => Char.ofNat (b % 256)))

/-- `.replace(/\0/g, '')`: drop every NUL character. -/
def replaceNulAll (s : String) : String := String.mk (s.data.filter (fun c => c ≠ Char.ofNat 0))

/-- `.replace(/\x00+$/, '')`: drop trailing NUL characters. -/
def trimTrailingNul (s : String) : String :=
  String.mk ((s.data.reverse.dropWhile (fun c => c = Char.ofNat 0)).reverse)

/-! ## Base64 (Node `Buffer.from(s, 'base64')` / standard encoding) -/

def b64Alphabet : List Char :=
  "ABCDEFGHIJKLMNOPQRSTUVWXYZabcdefghijklmnopqrstuvwxyz0123456789+/".data

/-- Character of one sextet. -/
def b64EncChar (n : Nat) : Char := b64Alphabet.getD n 'A'

/-- Sextet of one alphabet character (inputs here are encoder output only). -/
def b64DecChar (c : Char) : Nat :=
  match b64Alphabet.indexOf? c with
  | some i => i
  | none => 0

/-- Standard base64 encoding of a byte list, with `=` padding. -/
def b64Encode : List Nat → List Char
  | a :: b :: c :: rest =>
    let n := a % 256 * 2 ^ 16 + b % 256 * 2 ^ 8 + c % 256
    b64EncChar (n / 2 ^ 18) :: b64EncChar (n / 2 ^ 12 % 64) ::
      b64EncChar (n / 2 ^ 6 % 64) :: b64EncChar (n % 64) :: b64Encode rest
  | [a, b] =>
    [b64EncChar (a % 256 / 4), b64EncChar (a % 256 % 4 * 16 + b % 256 / 16),
      b64EncChar (b % 256 % 16 * 4), '=']
  | [a] => [b64EncChar (a % 256 / 4), b64EncChar (a % 256 % 4 * 16), '=', '=']
  | [] => []

/-- Base64 decoding of well-padded input (what `Buffer.from(s, 'base64')`
computes on the output of the encoder above). -/
def b64Decode : List Char → List Nat
  | c1 :: c2 :: c3 :: c4 :: rest =>
    if c3 = '=' then [b64DecChar c1 * 4 + b64DecChar c2 / 16]
    else if c4 = '=' then
      [b64DecChar c1 * 4 + b64DecChar c2 / 16,
        b64DecChar c2 % 16 * 16 + b64DecChar c3 / 4]
    else
      let n := b64DecChar c1 * 2 ^ 18 + b64DecChar c2 * 2 ^ 12 + b64DecChar c3 * 2 ^ 6 + b64DecChar c4
      n / 2 ^ 16 :: n / 2 ^ 8 % 256 :: n % 256 :: b64Decode rest
  | _ => []

/-! ## `util-helpers.js` — the lease URI decoders -/

/-- Modelled from the spec: `EvernodeConstants.LEASE_TOKEN_PREFIX_HEX` lives in
`evernode-common.js`, which is not among the sources.  The spec only says the
URI starts with a known prefix and that offsets are computed relative to the
known prefix length; the ASCII text `evrlease` (8 bytes) is used as the
modelled value, and only its length enters the decoders. -/
def LEASE_TOKEN_PREFIX_HEX : String := "6576726C65617365"

/-- The lease amount as the JS code produces it.  `num s` is the JS number
`parseFloat(s)`; its IEEE-754 value is not modelled — only that it is a
number obtained from the decimal string `s`, which is what the claims about
string-vs-float and about cross-decoder agreement concern.  `str s` is a
plain decimal-string value (what the spec says the field should be). -/
inductive LeaseAmountVal
  | str (s : String)
  | num (s : String)
  deriving Repr, DecidableEq

/-- JS `parseFloat`, modelled as the string-to-number coercion marker. -/
def jsParseFloat (s : String) : LeaseAmountVal := .num s

/-- `true` iff the value is a string (never true for this code's output). -/
def LeaseAmountVal.isStr : LeaseAmountVal → Bool
  | .str _ => true
  | .num _ => false

structure LeaseDesc where
  leaseIndex : Nat
  halfTos : List Nat
  leaseAmount : LeaseAmountVal
  deriving Repr, DecidableEq

/-- `UtilHelpers.decodeLeaseNftUri(hexUri)`.  `xflToString` is the external
scaled-decimal codec `XflHelpers.toString` (collaborator, `xfl-helpers.js` is
not among the sources). -/
def decodeLeaseNftUri (xflToString : Int → String) (hexUri : String) : Option LeaseDesc := do
  let prefixLen := LEASE_TOKEN_PREFIX_HEX.length / 2
  let halfToSLen := 16
  let uriBuf := hexDecode hexUri
  let leaseIndex ← readUInt16BE uriBuf prefixLen
  let halfTos := bufSlice uriBuf (prefixLen + 2) halfToSLen
  let amount ← readBigInt64BE uriBuf (prefixLen + 2 + halfToSLen)
  some { leaseIndex := leaseIndex, halfTos := halfTos,
         leaseAmount := jsParseFloat (xflToString amount) }

/-- Modelled from the spec: `TransactionHelper.hexToASCII` lives in
`transaction-helper.js`, which is not among the sources; the spec says the
decode chain is hex → ASCII text. -/
def hexToASCII (hex : String) : String := bytesToString (hexDecode hex)

/-- `UtilHelpers.decodeLeaseTokenUri(hexUri)`: hex → ASCII → base64 → bytes,
then the same fixed layout as `decodeLeaseNftUri`. -/
def decodeLeaseTokenUri (xflToString : Int → String) (hexUri : String) : Option LeaseDesc := do
  let asciiUri := hexToASCII hexUri
  let uriBuf := b64Decode asciiUri.data
  let prefixLen := LEASE_TOKEN_PREFIX_HEX.length / 2
  let halfToSLen := 16
  let leaseIndex ← readUInt16BE uriBuf prefixLen
  let halfTos := bufSlice uriBuf (prefixLen + 2) halfToSLen
  let amount ← readBigInt64BE uriBuf (prefixLen + 2 + halfToSLen)
  some { leaseIndex := leaseIndex, halfTos := halfTos,
         leaseAmount := jsParseFloat (xflToString amount) }

/-! ## `state-helpers.js` — constants -/

def EPOCH_OFFSET : Nat := 0
def SAVED_MOMENT_OFFSET : Nat := 1
def PREV_MOMENT_ACTIVE_HOST_COUNT_OFFSET : Nat := 5
def CUR_MOMENT_ACTIVE_HOST_COUNT_OFFSET : Nat := 9
def EPOCH_POOL_OFFSET : Nat := 13
def EPOCH_COUNT_OFFSET : Nat := 0
def FIRST_EPOCH_REWARD_QUOTA_OFFSET : Nat := 1
def EPOCH_REWARD_AMOUNT_OFFSET : Nat := 5
def REWARD_START_MOMENT_OFFSET : Nat := 9
def TRANSIT_IDX_OFFSET : Nat := 0
def TRANSIT_MOMENT_SIZE_OFFSET : Nat := 8
def TRANSIT_MOMENT_TYPE_OFFSET : Nat := 10
def MOMENT_BASE_POINT_OFFSET : Nat := 0
def MOMENT_AT_TRANSITION_OFFSET : Nat := 8
def MOMENT_TYPE_OFFSET : Nat := 12
def ELIGIBILITY_PERIOD_OFFSET : Nat := 0
def CANDIDATE_LIFE_PERIOD_OFFSET : Nat := 4
def CANDIDATE_ELECTION_PERIOD_OFFSET : Nat := 8
def CANDIDATE_SUPPORT_AVERAGE_OFFSET : Nat := 12
def GOVERNANCE_MODE_OFFSET : Nat := 0
def LAST_CANDIDATE_IDX_OFFSET : Nat := 1
def VOTER_BASE_COUNT_OFFSET : Nat := 5
def VOTER_BASE_COUNT_CHANGED_TIMESTAMP_OFFSET : Nat := 9
def FOUNDATION_LAST_VOTED_CANDIDATE_IDX : Nat := 17
def FOUNDATION_LAST_VOTED_TIMESTAMP_OFFSET : Nat := 21
def ELECTED_PROPOSAL_UNIQUE_ID_OFFSET : Nat := 29
def PROPOSAL_ELECTED_TIMESTAMP_OFFSET : Nat := 61
def UPDATED_HOOK_COUNT_OFFSET : Nat := 69
def FOUNDATION_SUPPORT_VOTE_FLAG_OFFSET : Nat := 70
def HOST_TOKEN_ID_OFFSET : Nat := 0
def HOST_COUNTRY_CODE_OFFSET : Nat := 32
def HOST_RESERVED_OFFSET : Nat := 34
def HOST_DESCRIPTION_OFFSET : Nat := 42
def HOST_REG_LEDGER_OFFSET : Nat := 68
def HOST_REG_FEE_OFFSET : Nat := 76
def HOST_TOT_INS_COUNT_OFFSET : Nat := 84
def HOST_ACT_INS_COUNT_OFFSET : Nat := 88
def HOST_HEARTBEAT_TIMESTAMP_OFFSET : Nat := 92
def HOST_VERSION_OFFSET : Nat := 100
def HOST_REG_TIMESTAMP_OFFSET : Nat := 103
def HOST_TRANSFER_FLAG_OFFSET : Nat := 111
def HOST_LAST_VOTE_CANDIDATE_IDX_OFFSET : Nat := 112
def HOST_LAST_VOTE_TIMESTAMP_OFFSET : Nat := 116
def HOST_SUPPORT_VOTE_FLAG_OFFSET : Nat := 124
def HOST_ADDRESS_OFFSET : Nat := 0
def HOST_CPU_MODEL_NAME_OFFSET : Nat := 20
def HOST_CPU_COUNT_OFFSET : Nat := 60
def HOST_CPU_SPEED_OFFSET : Nat := 62
def HOST_CPU_MICROSEC_OFFSET : Nat := 64
def HOST_RAM_MB_OFFSET : Nat := 68
def HOST_DISK_MB_OFFSET : Nat := 72
def HOST_EMAIL_ADDRESS_OFFSET : Nat := 76
def PREV_HOST_ADDRESS_OFFSET : Nat := 0
def TRANSFER_LEDGER_IDX_OFFSET : Nat := 20
def TRANSFERRED_NFT_ID_OFFSET : Nat := 28
def CANDIDATE_GOVERNOR_HOOK_HASH_OFFSET : Nat := 0
def CANDIDATE_REGISTRY_HOOK_HASH_OFFSET : Nat := 32
def CANDIDATE_HEARTBEAT_HOOK_HASH_OFFSET : Nat := 64
def CANDIDATE_OWNER_ADDRESS_OFFSET : Nat := 0
def CANDIDATE_IDX_OFFSET : Nat := 20
def CANDIDATE_SHORT_NAME_OFFSET : Nat := 24
def CANDIDATE_CREATED_TIMESTAMP_OFFSET : Nat := 44
def CANDIDATE_PROPOSAL_FEE_OFFSET : Nat := 52
def CANDIDATE_POSITIVE_VOTE_COUNT_OFFSET : Nat := 60
def CANDIDATE_LAST_VOTE_TIMESTAMP_OFFSET : Nat := 64
def CANDIDATE_STATUS_OFFSET : Nat := 72
def CANDIDATE_STATUS_CHANGE_TIMESTAMP_OFFSET : Nat := 73
def CANDIDATE_FOUNDATION_VOTE_STATUS_OFFSET : Nat := 81

namespace STATE_KEY_TYPES
def TOKEN_ID : Nat := 2
def HOST_ADDR : Nat := 3
def TRANSFEREE_ADDR : Nat := 4
def CANDIDATE_OWNER : Nat := 5
def CANDIDATE_ID : Nat := 6
end STATE_KEY_TYPES

namespace MOMENT_TYPES
def LEDGER : Nat := 0
def TIMESTAMP : Nat := 1
end MOMENT_TYPES

namespace TRANSFER_STATES
def NO_TRANSFER : Nat := 0
def HAS_A_TRANSFER : Nat := 1
end TRANSFER_STATES

/-- `EVERNODE_PREFIX = 'EVR'` of the source (renamed here), as UTF-8 bytes. -/
def EVERNODE_PFX : List Nat := [69, 86, 82]

def HOST_ADDR_KEY_ZERO_COUNT : Nat := 8
def TRANSFEREE_ADDR_KEY_ZERO_COUNT : Nat := 8
def CANDIDATE_OWNER_KEY_ZERO_COUNT : Nat := 8

/-- `HOOK_STATE_LEDGER_TYPE_PREFIX = 118` of the source (renamed here):
decimal value of ASCII `v`. -/
def HOOK_STATE_LEDGER_TYPE_PFX : Nat := 118

def PENDING_TRANSFER : Nat := 1
def HOST_EMAIL_ADDRESS_LEN : Nat := 40

namespace StateTypes
def TOKEN_ID : String := "tokenId"
def HOST_ADDR : String := "hostAddr"
def SIGLETON : String := "singleton"
def CONFIGURATION : String := "configuration"
def TRANSFEREE_ADDR : String := "transfereeAddr"
def CANDIDATE_OWNER : String := "candidateOwner"
def CANDIDATE_ID : String := "candidateId"
end StateTypes

/- Modelled from the spec: `HookStateKeys` and the `EvernodeConstants` enums
live in `evernode-common.js`, which is not among the sources.  The spec fixes
what the claims need: kind resolution uses the first four bytes for the five
prefixed kinds and exact full-buffer match against a fixed set of well-known
32-byte keys for Singleton/Configuration keys, and the `generate*StateKey`
functions of `state-helpers.js` show the prefixed keys to be
`'EVR' ‖ kindTag`.  The well-known keys are modelled as distinct 32-byte
values whose first four bytes (`45565201`) differ from all five prefixes. -/
namespace HookStateKeys
def PREFIX_HOST_TOKENID : String := "45565202"
def PREFIX_HOST_ADDR : String := "45565203"
def PREFIX_TRANSFEREE_ADDR : String := "45565204"
def PREFIX_CANDIDATE_OWNER : String := "45565205"
def PREFIX_CANDIDATE_ID : String := "45565206"
def EVR_ISSUER_ADDR : String := "4556520100000000000000000000000000000000000000000000000000000001"
def FOUNDATION_ADDR : String := "4556520100000000000000000000000000000000000000000000000000000002"
def MOMENT_SIZE : String := "4556520100000000000000000000000000000000000000000000000000000003"
def MINT_LIMIT : String := "4556520100000000000000000000000000000000000000000000000000000004"
def FIXED_REG_FEE : String := "4556520100000000000000000000000000000000000000000000000000000005"
def HOST_HEARTBEAT_FREQ : String := "4556520100000000000000000000000000000000000000000000000000000006"
def LEASE_ACQUIRE_WINDOW : String := "4556520100000000000000000000000000000000000000000000000000000007"
def REWARD_CONFIGURATION : String := "4556520100000000000000000000000000000000000000000000000000000008"
def MAX_TOLERABLE_DOWNTIME : String := "4556520100000000000000000000000000000000000000000000000000000009"
def MOMENT_TRANSIT_INFO : String := "455652010000000000000000000000000000000000000000000000000000000A"
def MAX_TRX_EMISSION_FEE : String := "455652010000000000000000000000000000000000000000000000000000000B"
def GOVERNANCE_CONFIGURATION : String := "455652010000000000000000000000000000000000000000000000000000000C"
def REGISTRY_ADDR : String := "455652010000000000000000000000000000000000000000000000000000000D"
def HEARTBEAT_ADDR : String := "455652010000000000000000000000000000000000000000000000000000000E"
def GOVERNANCE_INFO : String := "455652010000000000000000000000000000000000000000000000000000000F"
def HOST_COUNT : String := "4556520100000000000000000000000000000000000000000000000000000010"
def MOMENT_BASE_INFO : String := "4556520100000000000000000000000000000000000000000000000000000011"
def HOST_REG_FEE : String := "4556520100000000000000000000000000000000000000000000000000000012"
def MAX_REG : String := "4556520100000000000000000000000000000000000000000000000000000013"
def REWARD_INFO : String := "4556520100000000000000000000000000000000000000000000000000000014"
end HookStateKeys

/- Modelled from the spec: `EvernodeConstants.CandidateStatuses`
(spec §4.2: 0 → supported, 1 → elected, 2 → vetoed, 3 → expired). -/
namespace CandidateStatuses
def CANDIDATE_SUPPORTED : Nat := 0
def CANDIDATE_ELECTED : Nat := 1
def CANDIDATE_VETOED : Nat := 2
def CANDIDATE_EXPIRED : Nat := 3
end CandidateStatuses

/- Modelled from the spec: `EvernodeConstants.GovernanceModes`
(spec §4.2: 0 → piloted, 1 → co-piloted, 2 → auto-piloted). -/
namespace GovernanceModes
def Piloted : Nat := 0
def CoPiloted : Nat := 1
def AutoPiloted : Nat := 2
end GovernanceModes

/- Modelled from the spec: `EvernodeConstants.CandidateTypes` — the typed
discriminant written at byte 4 of candidate ids (§4.4); the numeric values
are not in the sources, only their distinctness matters. -/
namespace CandidateTypes
def NewHook : Nat := 1
def PilotedMode : Nat := 2
def DudHost : Nat := 3
end CandidateTypes

/-- The collaborating ripple address codec (`ripple-address-codec`, external):
`decodeAccountID` yields the 20-byte account id of a valid address,
`encodeAccountID` the textual address of 20 bytes. -/
structure AddrCodec where
  encodeAccountID : List Nat → String
  decodeAccountID : String → List Nat

/-- `buf.slice(start)` — from `start` to the end. -/
def bufSliceFrom (b : List Nat) (s : Nat) : List Nat := b.drop s

/-- `s.substring(a, b)`. -/
def jsSubstring (s : String) (a b : Nat) : String := String.mk ((s.data.take b).drop a)

/-! ## `state-helpers.js` — entity decoders -/

structure HostAddressRec where
  address : String
  uriTokenId : String
  countryCode : String
  description : String
  registrationLedger : Nat
  registrationFee : Nat
  maxInstances : Nat
  activeInstances : Nat
  lastHeartbeatIndex : Nat
  version : String
  isATransferer : Nat
  lastVoteCandidateIdx : Nat
  lastVoteTimestamp : Nat
  supportVoteSent : Nat
  registrationTimestamp : Option Nat
  deriving Repr, DecidableEq

/-- `StateHelpers.decodeHostAddressState(stateKeyBuf, stateDataBuf)`.  The
optional `registrationTimestamp` property is `none` when the JS object has no
such key. -/
def decodeHostAddressState (codec : AddrCodec) (stateKeyBuf stateDataBuf : List Nat) :
    Option HostAddressRec := do
  let registrationLedger ← readBigUInt64BE stateDataBuf HOST_REG_LEDGER_OFFSET
  let registrationFee ← readBigUInt64BE stateDataBuf HOST_REG_FEE_OFFSET
  let maxInstances ← readUInt32BE stateDataBuf HOST_TOT_INS_COUNT_OFFSET
  let activeInstances ← readUInt32BE stateDataBuf HOST_ACT_INS_COUNT_OFFSET
  let lastHeartbeatIndex ← readBigUInt64BE stateDataBuf HOST_HEARTBEAT_TIMESTAMP_OFFSET
  let v0 ← readUInt8 stateDataBuf HOST_VERSION_OFFSET
  let v1 ← readUInt8 stateDataBuf (HOST_VERSION_OFFSET + 1)
  let v2 ← readUInt8 stateDataBuf (HOST_VERSION_OFFSET + 2)
  let transferFlag ← readUInt8 stateDataBuf HOST_TRANSFER_FLAG_OFFSET
  let lastVoteCandidateIdx ← readUInt32BE stateDataBuf HOST_LAST_VOTE_CANDIDATE_IDX_OFFSET
  let lastVoteTimestamp ← readBigUInt64BE stateDataBuf HOST_LAST_VOTE_TIMESTAMP_OFFSET
  let supportVoteSent ← readUInt8 stateDataBuf HOST_SUPPORT_VOTE_FLAG_OFFSET
  let data : HostAddressRec := {
    address := codec.encodeAccountID (bufSliceFrom stateKeyBuf 12),
    uriTokenId := jsToUpperCase (bytesToHex (bufSlice stateDataBuf HOST_TOKEN_ID_OFFSET HOST_COUNTRY_CODE_OFFSET)),
    countryCode := bytesToString (bufSlice stateDataBuf HOST_COUNTRY_CODE_OFFSET HOST_RESERVED_OFFSET),
    description := replaceNulAll (bytesToString (bufSlice stateDataBuf HOST_DESCRIPTION_OFFSET HOST_REG_LEDGER_OFFSET)),
    registrationLedger := registrationLedger,
    registrationFee := registrationFee,
    maxInstances := maxInstances,
    activeInstances := activeInstances,
    lastHeartbeatIndex := lastHeartbeatIndex,
    version := toString v0 ++ "." ++ toString v1 ++ "." ++ toString v2,
    isATransferer := if transferFlag = PENDING_TRANSFER then TRANSFER_STATES.HAS_A_TRANSFER else TRANSFER_STATES.NO_TRANSFER,
    lastVoteCandidateIdx := lastVoteCandidateIdx,
    lastVoteTimestamp := lastVoteTimestamp,
    supportVoteSent := supportVoteSent,
    registrationTimestamp := none }
  if stateDataBuf.length > HOST_REG_TIMESTAMP_OFFSET then
    let ts ← readBigUInt64BE stateDataBuf HOST_REG_TIMESTAMP_OFFSET
    some { data with registrationTimestamp := some ts }
  else
    some data

structure TokenIdRec where
  address : String
  cpuModelName : String
  cpuCount : Nat
  cpuMHz : Nat
  cpuMicrosec : Nat
  ramMb : Nat
  diskMb : Nat
  email : String
  deriving Repr, DecidableEq

/-- `StateHelpers.decodeTokenIdState(stateDataBuf)`. -/
def decodeTokenIdState (codec : AddrCodec) (stateDataBuf : List Nat) : Option TokenIdRec := do
  let cpuCount ← readUInt16BE stateDataBuf HOST_CPU_COUNT_OFFSET
  let cpuMHz ← readUInt16BE stateDataBuf HOST_CPU_SPEED_OFFSET
  let cpuMicrosec ← readUInt32BE stateDataBuf HOST_CPU_MICROSEC_OFFSET
  let ramMb ← readUInt32BE stateDataBuf HOST_RAM_MB_OFFSET
  let diskMb ← readUInt32BE stateDataBuf HOST_DISK_MB_OFFSET
  some {
    address := codec.encodeAccountID (bufSlice stateDataBuf HOST_ADDRESS_OFFSET HOST_CPU_MODEL_NAME_OFFSET),
    cpuModelName := trimTrailingNul (bytesToString (bufSlice stateDataBuf HOST_CPU_MODEL_NAME_OFFSET HOST_CPU_COUNT_OFFSET)),
    cpuCount := cpuCount,
    cpuMHz := cpuMHz,
    cpuMicrosec := cpuMicrosec,
    ramMb := ramMb,
    diskMb := diskMb,
    email := replaceNulAll (bytesToString (bufSlice stateDataBuf HOST_EMAIL_ADDRESS_OFFSET (HOST_EMAIL_ADDRESS_OFFSET + HOST_EMAIL_ADDRESS_LEN))) }

/-- `StateHelpers.generateHostAddrStateKey(address)`. -/
def generateHostAddrStateKey (codec : AddrCodec) (address : String) : String :=
  let buf := STATE_KEY_TYPES.HOST_ADDR :: List.replicate HOST_ADDR_KEY_ZERO_COUNT 0
  let addrBuf := codec.decodeAccountID address
  let stateKeyBuf := EVERNODE_PFX ++ buf ++ addrBuf
  jsToUpperCase (bytesToHex stateKeyBuf)

/-- `StateHelpers.generateTransfereeAddrStateKey(address)`. -/
def generateTransfereeAddrStateKey (codec : AddrCodec) (address : String) : String :=
  let buf := STATE_KEY_TYPES.TRANSFEREE_ADDR :: List.replicate TRANSFEREE_ADDR_KEY_ZERO_COUNT 0
  let addrBuf := codec.decodeAccountID address
  let stateKeyBuf := EVERNODE_PFX ++ buf ++ addrBuf
  jsToUpperCase (bytesToHex stateKeyBuf)

/-- `StateHelpers.generateCandidateOwnerStateKey(owner)`. -/
def generateCandidateOwnerStateKey (codec : AddrCodec) (owner : String) : String :=
  let buf := STATE_KEY_TYPES.CANDIDATE_OWNER :: List.replicate CANDIDATE_OWNER_KEY_ZERO_COUNT 0
  let addrBuf := codec.decodeAccountID owner
  let stateKeyBuf := EVERNODE_PFX ++ buf ++ addrBuf
  jsToUpperCase (bytesToHex stateKeyBuf)

structure TransfereeRec where
  futureOwnerAddress : String
  prevHostAddressKey : String
  prevHostAddress : String
  transferLedgerIdx : Nat
  transferredNfTokenId : String
  deriving Repr, DecidableEq

/-- `StateHelpers.decodeTransfereeAddrState(stateKeyBuf, stateDataBuf)`. -/
def decodeTransfereeAddrState (codec : AddrCodec) (stateKeyBuf stateDataBuf : List Nat) :
    Option TransfereeRec := do
  let prevHostClassicAddress := codec.encodeAccountID (bufSlice stateDataBuf PREV_HOST_ADDRESS_OFFSET TRANSFER_LEDGER_IDX_OFFSET)
  let transferLedgerIdx ← readBigUInt64BE stateDataBuf TRANSFER_LEDGER_IDX_OFFSET
  some {
    futureOwnerAddress := codec.encodeAccountID (bufSliceFrom stateKeyBuf 12),
    prevHostAddressKey := generateHostAddrStateKey codec prevHostClassicAddress,
    prevHostAddress := prevHostClassicAddress,
    transferLedgerIdx := transferLedgerIdx,
    transferredNfTokenId := jsToUpperCase (bytesToHex (bufSlice stateDataBuf TRANSFERRED_NFT_ID_OFFSET 60)) }

/-- `StateHelpers.getNewHookCandidateId(hashesBuf)`.  `sha512Half` is the
external half-length digest collaborator from `xrpl-binary-codec`. -/
def getNewHookCandidateId (sha512Half : List Nat → List Nat) (hashesBuf : List Nat) : String :=
  let idBuf := (List.replicate 32 0).set 4 CandidateTypes.NewHook
  let idBuf := bufCopy (sha512Half hashesBuf) idBuf 5 5 (sha512Half hashesBuf).length
  jsToUpperCase (bytesToHex idBuf)

structure CandidateOwnerRec where
  ownerAddress : String
  uniqueId : String
  governorHookHash : String
  registryHookHash : String
  heartbeatHookHash : String
  deriving Repr, DecidableEq

/-- `StateHelpers.decodeCandidateOwnerState(stateKeyBuf, stateDataBuf)`. -/
def decodeCandidateOwnerState (codec : AddrCodec) (sha512Half : List Nat → List Nat)
    (stateKeyBuf stateDataBuf : List Nat) : Option CandidateOwnerRec :=
  some {
    ownerAddress := codec.encodeAccountID (bufSliceFrom stateKeyBuf 12),
    uniqueId := getNewHookCandidateId sha512Half stateDataBuf,
    governorHookHash := jsToUpperCase (bytesToHex (bufSlice stateDataBuf CANDIDATE_GOVERNOR_HOOK_HASH_OFFSET CANDIDATE_REGISTRY_HOOK_HASH_OFFSET)),
    registryHookHash := jsToUpperCase (bytesToHex (bufSlice stateDataBuf CANDIDATE_REGISTRY_HOOK_HASH_OFFSET CANDIDATE_HEARTBEAT_HOOK_HASH_OFFSET)),
    heartbeatHookHash := jsToUpperCase (bytesToHex (bufSlice stateDataBuf CANDIDATE_HEARTBEAT_HOOK_HASH_OFFSET (CANDIDATE_HEARTBEAT_HOOK_HASH_OFFSET + 32))) }

structure CandidateIdRec where
  ownerAddress : String
  index : Nat
  shortName : String
  createdTimestamp : Nat
  proposalFee : String
  positiveVoteCount : Nat
  lastVoteTimestamp : Nat
  status : String
  statusChangeTimestamp : Nat
  foundationVoteStatus : String
  deriving Repr, DecidableEq

/-- `StateHelpers.decodeCandidateIdState(stateDataBuf)`; the `switch` on the
status byte runs before the object literal is built. -/
def decodeCandidateIdState (codec : AddrCodec) (xflToString : Int → String)
    (stateDataBuf : List Nat) : Option CandidateIdRec := do
  let statusByte ← readUInt8 stateDataBuf CANDIDATE_STATUS_OFFSET
  let status :=
    if statusByte = CandidateStatuses.CANDIDATE_SUPPORTED then "supported"
    else if statusByte = CandidateStatuses.CANDIDATE_ELECTED then "elected"
    else if statusByte = CandidateStatuses.CANDIDATE_VETOED then "vetoed"
    else if statusByte = CandidateStatuses.CANDIDATE_EXPIRED then "expired"
    else "rejected"
  let index ← readUInt32BE stateDataBuf CANDIDATE_IDX_OFFSET
  let createdTimestamp ← readBigUInt64BE stateDataBuf CANDIDATE_CREATED_TIMESTAMP_OFFSET
  let proposalFee ← readBigInt64BE stateDataBuf CANDIDATE_PROPOSAL_FEE_OFFSET
  let positiveVoteCount ← readUInt32BE stateDataBuf CANDIDATE_POSITIVE_VOTE_COUNT_OFFSET
  let lastVoteTimestamp ← readBigUInt64BE stateDataBuf CANDIDATE_LAST_VOTE_TIMESTAMP_OFFSET
  let statusChangeTimestamp ← readBigUInt64BE stateDataBuf CANDIDATE_STATUS_CHANGE_TIMESTAMP_OFFSET
  let foundationVoteByte ← readUInt8 stateDataBuf CANDIDATE_FOUNDATION_VOTE_STATUS_OFFSET
  some {
    ownerAddress := codec.encodeAccountID (bufSlice stateDataBuf CANDIDATE_OWNER_ADDRESS_OFFSET CANDIDATE_IDX_OFFSET),
    index := index,
    shortName := trimTrailingNul (bytesToString (bufSlice stateDataBuf CANDIDATE_SHORT_NAME_OFFSET CANDIDATE_CREATED_TIMESTAMP_OFFSET)),
    createdTimestamp := createdTimestamp,
    proposalFee := xflToString proposalFee,
    positiveVoteCount := positiveVoteCount,
    lastVoteTimestamp := lastVoteTimestamp,
    status := status,
    statusChangeTimestamp := statusChangeTimestamp,
    foundationVoteStatus := if foundationVoteByte = CandidateStatuses.CANDIDATE_SUPPORTED then "supported" else "rejected" }

/-! ## `state-helpers.js` — the (key, data) dispatcher -/

inductive JsError
  | validation (msg : String)
  | rangeError
  deriving Repr, DecidableEq

/-- A Node `Buffer` read either yields its value or throws a `RangeError`. -/
def liftRead : Option α → Except JsError α
  | some a => .ok a
  | none => .error .rangeError

/-- The typed records `decodeStateData` returns: one constructor per shape of
object literal in the source, each carrying its `type` and `key` properties. -/
inductive DecodedState where
  | hostAddr (type key : String) (r : HostAddressRec)
  | tokenId (type key addressKey : String) (r : TokenIdRec)
  | transfereeAddr (type key : String) (r : TransfereeRec)
  | candidateOwner (type key idKey : String) (r : CandidateOwnerRec)
  | candidateId (type key : String) (r : CandidateIdRec)
  | objNat (type key : String) (value : Nat)
  | momentBaseInfo (type key : String) (baseIdx baseTransitionMoment : Nat) (momentType : String)
  | objAddr (type key : String) (value : String)
  | rewardConfiguration (type key : String) (epochCount firstEpochRewardQuota epochRewardAmount rewardStartMoment : Nat)
  | rewardInfo (type key : String) (epoch savedMoment prevMomentActiveHostCount curMomentActiveHostCount : Nat) (epochPool : String)
  | momentTransitInfo (type key : String) (transitionIndex : Int) (momentSize : Nat) (momentType : String)
  | governanceConfiguration (type key : String) (eligibilityPeriod candidateLifePeriod candidateElectionPeriod candidateSupportAverage : Nat)
  | governanceInfo (type key : String) (governanceMode : String) (lastCandidateIdx voteBaseCount voteBaseCountChangedTimestamp foundationLastVotedCandidateIdx foundationLastVotedTimestamp electedProposalUniqueId proposalElectedTimestamp updatedHookCount supportVoteSent : Nat)
  deriving Repr, DecidableEq

/-- `StateHelpers.decodeStateData(stateKey, stateData)`: the sequential
prefix/exact-match dispatch of the source, branch for branch and in the same
order; the final `else` is the `Validation Error` throw. -/
def decodeStateData (codec : AddrCodec) (xflToString : Int → String)
    (sha512Half : List Nat → List Nat) (stateKey stateData : List Nat) :
    Except JsError DecodedState := do
  let hexKey := jsToUpperCase (bytesToHex stateKey)
  if bufCompare (hexDecode HookStateKeys.PREFIX_HOST_ADDR) (bufSlice stateKey 0 4) = 0 then
    let r ← liftRead (decodeHostAddressState codec stateKey stateData)
    .ok (.hostAddr StateTypes.HOST_ADDR hexKey r)
  else if bufCompare (hexDecode HookStateKeys.PREFIX_HOST_TOKENID) (bufSlice stateKey 0 4) = 0 then
    let addressKeyBuf := bufCopy (hexDecode HookStateKeys.PREFIX_HOST_ADDR)
      (List.replicate 32 0) 0 0 (hexDecode HookStateKeys.PREFIX_HOST_ADDR).length
    let addressKeyBuf := bufCopy stateData addressKeyBuf 12 HOST_ADDRESS_OFFSET HOST_CPU_MODEL_NAME_OFFSET
    let r ← liftRead (decodeTokenIdState codec stateData)
    .ok (.tokenId StateTypes.TOKEN_ID hexKey (jsToUpperCase (bytesToHex addressKeyBuf)) r)
  else if bufCompare (hexDecode HookStateKeys.PREFIX_TRANSFEREE_ADDR) (bufSlice stateKey 0 4) = 0 then
    let r ← liftRead (decodeTransfereeAddrState codec stateKey stateData)
    .ok (.transfereeAddr StateTypes.TRANSFEREE_ADDR hexKey r)
  else if bufCompare (hexDecode HookStateKeys.PREFIX_CANDIDATE_OWNER) (bufSlice stateKey 0 4) = 0 then
    let decoded ← liftRead (decodeCandidateOwnerState codec sha512Half stateKey stateData)
    let idBuf := bufCopy (hexDecode HookStateKeys.PREFIX_CANDIDATE_ID)
      (List.replicate 32 0) 0 0 (hexDecode HookStateKeys.PREFIX_CANDIDATE_ID).length
    let idBuf := bufCopy (hexDecode decoded.uniqueId) idBuf 4 4 32
    .ok (.candidateOwner StateTypes.CANDIDATE_OWNER hexKey (jsToUpperCase (bytesToHex idBuf)) decoded)
  else if bufCompare (hexDecode HookStateKeys.PREFIX_CANDIDATE_ID) (bufSlice stateKey 0 4) = 0 then
    let r ← liftRead (decodeCandidateIdState codec xflToString stateData)
    .ok (.candidateId StateTypes.CANDIDATE_ID hexKey r)
  else if bufCompare (hexDecode HookStateKeys.HOST_COUNT) stateKey = 0 then
    let v ← liftRead (readUInt32BE stateData 0)
    .ok (.objNat StateTypes.SIGLETON hexKey v)
  else if bufCompare (hexDecode HookStateKeys.MOMENT_BASE_INFO) stateKey = 0 then
    let baseIdx ← liftRead (readBigUInt64BE stateData MOMENT_BASE_POINT_OFFSET)
    let baseTransitionMoment ←
      if stateData.length > MOMENT_AT_TRANSITION_OFFSET then
        liftRead (readUInt32BE stateData MOMENT_AT_TRANSITION_OFFSET)
      else pure 0
    let momentType ←
      if stateData.length ≤ MOMENT_TYPE_OFFSET then pure "ledger"
      else do
        let b ← liftRead (readUInt8 stateData MOMENT_TYPE_OFFSET)
        pure (if b = MOMENT_TYPES.LEDGER then "ledger" else "timestamp")
    .ok (.momentBaseInfo StateTypes.SIGLETON hexKey baseIdx baseTransitionMoment momentType)
  else if bufCompare (hexDecode HookStateKeys.HOST_REG_FEE) stateKey = 0 ∨
      bufCompare (hexDecode HookStateKeys.MAX_REG) stateKey = 0 then
    let v ← liftRead (readBigUInt64BE stateData 0)
    .ok (.objNat StateTypes.SIGLETON hexKey v)
  else if bufCompare (hexDecode HookStateKeys.REGISTRY_ADDR) stateKey = 0 ∨
      bufCompare (hexDecode HookStateKeys.HEARTBEAT_ADDR) stateKey = 0 ∨
      bufCompare (hexDecode HookStateKeys.EVR_ISSUER_ADDR) stateKey = 0 ∨
      bufCompare (hexDecode HookStateKeys.FOUNDATION_ADDR) stateKey = 0 then
    .ok (.objAddr StateTypes.CONFIGURATION hexKey (codec.encodeAccountID stateData))
  else if bufCompare (hexDecode HookStateKeys.MOMENT_SIZE) stateKey = 0 ∨
      bufCompare (hexDecode HookStateKeys.HOST_HEARTBEAT_FREQ) stateKey = 0 ∨
      bufCompare (hexDecode HookStateKeys.LEASE_ACQUIRE_WINDOW) stateKey = 0 then
    let v ← liftRead (readUInt16BE stateData 0)
    .ok (.objNat StateTypes.CONFIGURATION hexKey v)
  else if bufCompare (hexDecode HookStateKeys.MINT_LIMIT) stateKey = 0 ∨
      bufCompare (hexDecode HookStateKeys.FIXED_REG_FEE) stateKey = 0 then
    let v ← liftRead (readBigUInt64BE stateData 0)
    .ok (.objNat StateTypes.CONFIGURATION hexKey v)
  else if bufCompare (hexDecode HookStateKeys.REWARD_CONFIGURATION) stateKey = 0 then
    let epochCount ← liftRead (readUInt8 stateData EPOCH_COUNT_OFFSET)
    let firstEpochRewardQuota ← liftRead (readUInt32BE stateData FIRST_EPOCH_REWARD_QUOTA_OFFSET)
    let epochRewardAmount ← liftRead (readUInt32BE stateData EPOCH_REWARD_AMOUNT_OFFSET)
    let rewardStartMoment ← liftRead (readUInt32BE stateData REWARD_START_MOMENT_OFFSET)
    .ok (.rewardConfiguration StateTypes.CONFIGURATION hexKey epochCount firstEpochRewardQuota epochRewardAmount rewardStartMoment)
  else if bufCompare (hexDecode HookStateKeys.REWARD_INFO) stateKey = 0 then
    let epoch ← liftRead (readUInt8 stateData EPOCH_OFFSET)
    let savedMoment ← liftRead (readUInt32BE stateData SAVED_MOMENT_OFFSET)
    let prevMomentActiveHostCount ← liftRead (readUInt32BE stateData PREV_MOMENT_ACTIVE_HOST_COUNT_OFFSET)
    let curMomentActiveHostCount ← liftRead (readUInt32BE stateData CUR_MOMENT_ACTIVE_HOST_COUNT_OFFSET)
    let epochPool ← liftRead (readBigInt64BE stateData EPOCH_POOL_OFFSET)
    .ok (.rewardInfo StateTypes.SIGLETON hexKey epoch savedMoment prevMomentActiveHostCount curMomentActiveHostCount (xflToString epochPool))
  else if bufCompare (hexDecode HookStateKeys.MAX_TOLERABLE_DOWNTIME) stateKey = 0 then
    let v ← liftRead (readUInt16BE stateData 0)
    .ok (.objNat StateTypes.CONFIGURATION hexKey v)
  else if bufCompare (hexDecode HookStateKeys.MOMENT_TRANSIT_INFO) stateKey = 0 then
    let transitionIndex ← liftRead (readBigInt64BE stateData TRANSIT_IDX_OFFSET)
    let momentSize ← liftRead (readUInt16BE stateData TRANSIT_MOMENT_SIZE_OFFSET)
    let momentTypeByte ← liftRead (readUInt8 stateData TRANSIT_MOMENT_TYPE_OFFSET)
    .ok (.momentTransitInfo StateTypes.CONFIGURATION hexKey transitionIndex momentSize
      (if momentTypeByte = MOMENT_TYPES.LEDGER then "ledger" else "timestamp"))
  else if bufCompare (hexDecode HookStateKeys.MAX_TRX_EMISSION_FEE) stateKey = 0 then
    let v ← liftRead (readBigUInt64BE stateData 0)
    .ok (.objNat StateTypes.CONFIGURATION hexKey v)
  else if bufCompare (hexDecode HookStateKeys.GOVERNANCE_CONFIGURATION) stateKey = 0 then
    let eligibilityPeriod ← liftRead (readUInt32BE stateData ELIGIBILITY_PERIOD_OFFSET)
    let candidateLifePeriod ← liftRead (readUInt32BE stateData CANDIDATE_LIFE_PERIOD_OFFSET)
    let candidateElectionPeriod ← liftRead (readUInt32BE stateData CANDIDATE_ELECTION_PERIOD_OFFSET)
    let candidateSupportAverage ← liftRead (readUInt16BE stateData CANDIDATE_SUPPORT_AVERAGE_OFFSET)
    .ok (.governanceConfiguration StateTypes.CONFIGURATION hexKey eligibilityPeriod candidateLifePeriod candidateElectionPeriod candidateSupportAverage)
  else if bufCompare (hexDecode HookStateKeys.GOVERNANCE_INFO) stateKey = 0 then
    let modeByte ← liftRead (readUInt8 stateData GOVERNANCE_MODE_OFFSET)
    let mode :=
      if modeByte = GovernanceModes.Piloted then "piloted"
      else if modeByte = GovernanceModes.CoPiloted then "co-piloted"
      else if modeByte = GovernanceModes.AutoPiloted then "auto-piloted"
      else "undefined"
    let lastCandidateIdx ← liftRead (readUInt32BE stateData LAST_CANDIDATE_IDX_OFFSET)
    let voteBaseCount ← liftRead (readUInt32BE stateData VOTER_BASE_COUNT_OFFSET)
    let voteBaseCountChangedTimestamp ← liftRead (readBigUInt64BE stateData VOTER_BASE_COUNT_CHANGED_TIMESTAMP_OFFSET)
    let foundationLastVotedCandidateIdx ← liftRead (readUInt32BE stateData FOUNDATION_LAST_VOTED_CANDIDATE_IDX)
    let foundationLastVotedTimestamp ← liftRead (readBigUInt64BE stateData FOUNDATION_LAST_VOTED_TIMESTAMP_OFFSET)
    let electedProposalUniqueId ← liftRead (readUInt32BE stateData ELECTED_PROPOSAL_UNIQUE_ID_OFFSET)
    let proposalElectedTimestamp ← liftRead (readBigUInt64BE stateData PROPOSAL_ELECTED_TIMESTAMP_OFFSET)
    let updatedHookCount ← liftRead (readUInt8 stateData UPDATED_HOOK_COUNT_OFFSET)
    let supportVoteSent ← liftRead (readUInt8 stateData FOUNDATION_SUPPORT_VOTE_FLAG_OFFSET)
    .ok (.governanceInfo StateTypes.CONFIGURATION hexKey mode lastCandidateIdx voteBaseCount voteBaseCountChangedTimestamp foundationLastVotedCandidateIdx foundationLastVotedTimestamp electedProposalUniqueId proposalElectedTimestamp updatedHookCount supportVoteSent)
  else
    .error (.validation "Invalid state key.")

structure KeyInfo where
  key : String
  type : String
  deriving Repr, DecidableEq

/-- `StateHelpers.decodeStateKey(stateKey)`, branch for branch.  Note the
source's configuration branch tests
`Buffer.from(HookStateKeys.HOST_HEARTBEAT_FREQ, 'hex').compare(stateKey)`
with no `=== 0` (line 477): the raw compare result (-1/0/1) is used as the
condition, so that disjunct is truthy exactly when the key is NOT the
heartbeat-frequency key; this is mirrored here as `≠ 0`. -/
def decodeStateKey (stateKey : List Nat) : Except JsError KeyInfo :=
  let hexKey := jsToUpperCase (bytesToHex stateKey)
  if bufCompare (hexDecode HookStateKeys.PREFIX_HOST_ADDR) (bufSlice stateKey 0 4) = 0 then
    .ok { key := hexKey, type := StateTypes.HOST_ADDR }
  else if bufCompare (hexDecode HookStateKeys.PREFIX_HOST_TOKENID) (bufSlice stateKey 0 4) = 0 then
    .ok { key := hexKey, type := StateTypes.TOKEN_ID }
  else if bufCompare (hexDecode HookStateKeys.PREFIX_TRANSFEREE_ADDR) (bufSlice stateKey 0 4) = 0 then
    .ok { key := hexKey, type := StateTypes.TRANSFEREE_ADDR }
  else if bufCompare (hexDecode HookStateKeys.PREFIX_CANDIDATE_ID) (bufSlice stateKey 0 4) = 0 then
    .ok { key := hexKey, type := StateTypes.CANDIDATE_ID }
  else if bufCompare (hexDecode HookStateKeys.PREFIX_CANDIDATE_OWNER) (bufSlice stateKey 0 4) = 0 then
    .ok { key := hexKey, type := StateTypes.CANDIDATE_OWNER }
  else if bufCompare (hexDecode HookStateKeys.HOST_COUNT) stateKey = 0 ∨
      bufCompare (hexDecode HookStateKeys.MOMENT_BASE_INFO) stateKey = 0 ∨
      bufCompare (hexDecode HookStateKeys.HOST_REG_FEE) stateKey = 0 ∨
      bufCompare (hexDecode HookStateKeys.MAX_REG) stateKey = 0 ∨
      bufCompare (hexDecode HookStateKeys.REWARD_INFO) stateKey = 0 then
    .ok { key := hexKey, type := StateTypes.SIGLETON }
  else if bufCompare (hexDecode HookStateKeys.EVR_ISSUER_ADDR) stateKey = 0 ∨
      bufCompare (hexDecode HookStateKeys.FOUNDATION_ADDR) stateKey = 0 ∨
      bufCompare (hexDecode HookStateKeys.MOMENT_SIZE) stateKey = 0 ∨
      bufCompare (hexDecode HookStateKeys.HOST_HEARTBEAT_FREQ) stateKey ≠ 0 ∨
      bufCompare (hexDecode HookStateKeys.MINT_LIMIT) stateKey = 0 ∨
      bufCompare (hexDecode HookStateKeys.FIXED_REG_FEE) stateKey = 0 ∨
      bufCompare (hexDecode HookStateKeys.LEASE_ACQUIRE_WINDOW) stateKey = 0 ∨
      bufCompare (hexDecode HookStateKeys.REWARD_CONFIGURATION) stateKey = 0 ∨
      bufCompare (hexDecode HookStateKeys.MAX_TOLERABLE_DOWNTIME) stateKey = 0 ∨
      bufCompare (hexDecode HookStateKeys.MOMENT_TRANSIT_INFO) stateKey = 0 ∨
      bufCompare (hexDecode HookStateKeys.MAX_TRX_EMISSION_FEE) stateKey = 0 ∨
      bufCompare (hexDecode HookStateKeys.REGISTRY_ADDR) stateKey = 0 ∨
      bufCompare (hexDecode HookStateKeys.HEARTBEAT_ADDR) stateKey = 0 ∨
      bufCompare (hexDecode HookStateKeys.GOVERNANCE_CONFIGURATION) stateKey = 0 ∨
      bufCompare (hexDecode HookStateKeys.GOVERNANCE_INFO) stateKey = 0 then
    .ok { key := hexKey, type := StateTypes.CONFIGURATION }
  else
    .error (.validation "Invalid state key.")

/-- `StateHelpers.getHookStateIndex(hookAccount, stateKey, hookNamespace)`.
`sha512` is node's `crypto` SHA-512 (collaborator); the source's incremental
`hash.update` calls over the four buffers amount to hashing their
concatenation, which is how the digest input is formed here. -/
def getHookStateIndex (sha512 : List Nat → List Nat) (codec : AddrCodec)
    (hookAccount stateKey hookNamespace : String) : String :=
  let typeBuf := [HOOK_STATE_LEDGER_TYPE_PFX / 2 ^ 8 % 256, HOOK_STATE_LEDGER_TYPE_PFX % 256]
  let accIdBuf := codec.decodeAccountID hookAccount
  let stateKeyBuf := hexDecode stateKey
  let namespaceBuf := hexDecode hookNamespace
  let digest := bytesToHex (sha512 (typeBuf ++ accIdBuf ++ stateKeyBuf ++ namespaceBuf))
  jsToUpperCase (jsSubstring digest 0 64)

/-! ## `clients/tenant-client.js` — offer selection and watch options

Only the synchronous decision logic the claims are about is embedded: the
offer lookup of `acquireLeaseSubmit` (lines 68–109) and the effective
watch timeout of `watchExtendResponse` as invoked from `extendLease`
(lines 215–223 and 287).  Ledger traffic (`getLeaseHost`, `getLeaseOffers`,
`buyURIToken`, encryption) is external; its results are inputs here. -/

def DEFAULT_WAIT_TIMEOUT : Nat := 60000

/-- A small JS value universe: enough to model option objects, the numeric
`minLedgerIndex`, string offer indices and `undefined`. -/
inductive JsVal
  | undefined
  | num (n : Int)
  | str (s : String)
  | obj (fields : List (String × JsVal))
  deriving Repr

/-- JS truthiness on the values above. -/
def jsTruthy : JsVal → Bool
  | .undefined => false
  | .num n => n ≠ 0
  | .str s => s ≠ ""
  | .obj _ => true

/-- JS property access `v.k`: a field of an object, `undefined` otherwise
(property access on a number yields `undefined` for these keys). -/
def jsGet : JsVal → String → JsVal
  | .obj fields, k =>
    match fields.lookup k with
    | some v => v
    | none => .undefined
  | _, _ => .undefined

/-- JS `a || b`. -/
def jsOr (a b : JsVal) : JsVal := if jsTruthy a then a else b

/-- A URI-token sell offer as returned by the `EvernodeHelpers.getLeaseOffers`
collaborator; only its ledger object index matters here. -/
structure UriOffer where
  index : String
  deriving Repr, DecidableEq

/-- A thrown `{reason, error}` object.  The `ErrorReasons` string constants
live in `evernode-common.js` (not among the sources); the reason is modelled
by the constant's name. -/
structure JsThrow where
  reason : String
  error : String
  deriving Repr, DecidableEq

/-- The `find` callback at tenant-client.js line 82:
`uriOffer => { uriOffer.index === selectedOfferIndex }` — a braced arrow
body with no `return`, so after evaluating the (side-effect-free) comparison
it returns `undefined` for every element. -/
def acquireOfferFindCallback (_uriOffer : UriOffer) (_selectedOfferIndex : JsVal) : JsVal :=
  .undefined

/-- The offer-selection slice of `TenantClient.acquireLeaseSubmit`
(lines 71–86): pick the first offer when `options.leaseOfferIndex` is falsy,
otherwise look the offer up with the callback above; throw
`{reason: NO_OFFER, error: 'No offers available.'}` when nothing was picked. -/
def acquireLeaseSelectOffer (uriTokenOffers : List UriOffer) (options : JsVal) :
    Except JsThrow UriOffer :=
  let selectedOfferIndex := jsGet options "leaseOfferIndex"
  let buyUriOffer : Option UriOffer :=
    if ¬ jsTruthy selectedOfferIndex then
      uriTokenOffers.head?
    else
      uriTokenOffers.find? (fun uriOffer =>
        jsTruthy (acquireOfferFindCallback uriOffer selectedOfferIndex))
  match buyUriOffer with
  | none => .error { reason := "NO_OFFER", error := "No offers available." }
  | some o => .ok o

/-- The timeout `watchExtendResponse` arms its fail timer with (line 223):
`options.timeout || DEFAULT_WAIT_TIMEOUT`. -/
def watchExtendResponseTimeout (options : JsVal) : JsVal :=
  jsOr (jsGet options "timeout") (.num (DEFAULT_WAIT_TIMEOUT : Int))

/-- `extendLease` (line 287) calls
`watchExtendResponse(tx, minLedgerIndex, options)`, while
`watchExtendResponse(tx, options = {})` declares two parameters: the number
`minLedgerIndex` binds to the `options` parameter and the caller's options
object becomes a dropped extra argument.  This function is that argument
binding: what `watchExtendResponse` receives as `options`. -/
def extendLeaseWatchOptionsArg (minLedgerIndex : Int) (_options : JsVal) : JsVal :=
  .num minLedgerIndex

/-! ## Concrete collaborator instances and inputs for closed evaluations -/

/-- A concrete stand-in address codec for closed evaluations: hex text. -/
def hexCodec : AddrCodec :=
  { encodeAccountID := fun l => bytesToHex l, decodeAccountID := fun s => hexDecode s }

/-- A concrete stand-in scaled-decimal codec for closed evaluations. -/
def intToString : Int → String := fun i => toString i

/-- A concrete stand-in digest function for closed evaluations. -/
def zeroHash64 : List Nat → List Nat := fun _ => List.replicate 64 0

/-- The hex encoding of the ASCII text `s` (how a token URI carries its
base64 text on the ledger). -/
def stringToHexText (s : String) : String := bytesToHex (s.data.map Char.toNat)

/-- Lease-URI bytes used in closed evaluations:
prefix ‖ index 0x0001 ‖ 16-byte half hash 0x10…0x1F ‖ amount 42. -/
def leaseUriBytes : List Nat :=
  hexDecode LEASE_TOKEN_PREFIX_HEX ++ [0, 1] ++
    [16, 17, 18, 19, 20, 21, 22, 23, 24, 25, 26, 27, 28, 29, 30, 31] ++
    [0, 0, 0, 0, 0, 0, 0, 42]

end Evernode

namespace Evernode

/-! ## Codec round-trip lemmas -/

theorem hexDigitVal_lower : ∀ d < 16, hexDigitVal? (hexDigitLower d) = some d := by decide

theorem hexDigitVal_upper : ∀ d < 16, hexDigitVal? (hexDigitUpper d) = some d := by decide

theorem hexDecodeChars_bytesToHexChars (l : List Nat) (h : ∀ x ∈ l, x < 256) :
    hexDecodeChars (bytesToHexChars l) = l := by
  induction l with
  | nil => rfl
  | cons b t ih =>
    have hb : b < 256 := h b (by simp)
    have hmod : b % 256 = b := Nat.mod_eq_of_lt hb
    simp only [bytesToHexChars, hexDecodeChars, hmod,
      hexDigitVal_lower (b / 16) (by omega), hexDigitVal_lower (b % 16) (by omega)]
    rw [ih (fun x hx => h x (by simp [hx]))]
    congr 1
    omega

/-- `Buffer.from(buf.toString('hex'), 'hex')` restores the bytes. -/
theorem hexDecode_bytesToHex (l : List Nat) (h : ∀ x ∈ l, x < 256) :
    hexDecode (bytesToHex l) = l := by
  simpa [hexDecode, bytesToHex] using hexDecodeChars_bytesToHexChars l h

theorem hexDecodeChars_bytesToHexUpperChars (l : List Nat) (h : ∀ x ∈ l, x < 256) :
    hexDecodeChars (bytesToHexUpperChars l) = l := by
  induction l with
  | nil => rfl
  | cons b t ih =>
    have hb : b < 256 := h b (by simp)
    have hmod : b % 256 = b := Nat.mod_eq_of_lt hb
    simp only [bytesToHexUpperChars, hexDecodeChars, hmod,
      hexDigitVal_upper (b / 16) (by omega), hexDigitVal_upper (b % 16) (by omega)]
    rw [ih (fun x hx => h x (by simp [hx]))]
    congr 1
    omega

theorem hexDecode_bytesToHexUpper (l : List Nat) (h : ∀ x ∈ l, x < 256) :
    hexDecode (bytesToHexUpper l) = l := by
  simpa [hexDecode, bytesToHexUpper] using hexDecodeChars_bytesToHexUpperChars l h

theorem toUpper_hexDigitLower : ∀ d < 16, (hexDigitLower d).toUpper = hexDigitUpper d := by
  decide

/-- `buf.toString('hex').toUpperCase()` is the upper-case hex rendering. -/
theorem jsToUpperCase_bytesToHex (l : List Nat) :
    jsToUpperCase (bytesToHex l) = bytesToHexUpper l := by
  simp only [jsToUpperCase, bytesToHex, bytesToHexUpper]
  congr 1
  induction l with
  | nil => rfl
  | cons b t ih =>
    simp only [bytesToHexChars, bytesToHexUpperChars, List.map_cons, ih,
      toUpper_hexDigitLower (b % 256 / 16) (by omega),
      toUpper_hexDigitLower (b % 256 % 16) (by omega)]

/-- Taking an even number of hex characters is hex-rendering a byte prefix. -/
theorem bytesToHexChars_take (l : List Nat) (n : Nat) :
    (bytesToHexChars l).take (2 * n) = bytesToHexChars (l.take n) := by
  induction l generalizing n with
  | nil => simp [bytesToHexChars]
  | cons b t ih =>
    cases n with
    | zero => simp [bytesToHexChars]
    | succ m =>
      have h2 : 2 * (m + 1) = (2 * m + 1) + 1 := by omega
      simp [bytesToHexChars, h2, List.take_succ_cons, ih]

/-! ## Base64 round trip -/

theorem b64DecChar_b64EncChar : ∀ n < 64, b64DecChar (b64EncChar n) = n := by decide

theorem b64EncChar_ne_pad : ∀ n < 64, b64EncChar n ≠ '=' := by decide

theorem b64EncChar_toNat_lt : ∀ n < 64, (b64EncChar n).toNat < 256 := by decide

/-- `Buffer.from(base64Text, 'base64')` restores the encoded bytes. -/
theorem b64Decode_b64Encode : ∀ l : List Nat, (∀ x ∈ l, x < 256) → b64Decode (b64Encode l) = l
  | [], _ => rfl
  | [a], h => by
    have ha : a < 256 := h a (by simp)
    have hmod : a % 256 = a := Nat.mod_eq_of_lt ha
    have hd1 := b64DecChar_b64EncChar (a / 4) (by omega)
    have hd2 := b64DecChar_b64EncChar (a % 4 * 16) (by omega)
    simp [b64Encode, hmod, b64Decode, hd1, hd2]
    omega
  | [a, b], h => by
    have ha : a < 256 := h a (by simp)
    have hb : b < 256 := h b (by simp)
    have hmoda : a % 256 = a := Nat.mod_eq_of_lt ha
    have hmodb : b % 256 = b := Nat.mod_eq_of_lt hb
    have hd1 := b64DecChar_b64EncChar (a / 4) (by omega)
    have hd2 := b64DecChar_b64EncChar (a % 4 * 16 + b / 16) (by omega)
    have hd3 := b64DecChar_b64EncChar (b % 16 * 4) (by omega)
    have hne := b64EncChar_ne_pad (b % 16 * 4) (by omega)
    simp [b64Encode, hmoda, hmodb, b64Decode, hne, hd1, hd2, hd3]
    omega
  | a :: b :: c :: rest, h => by
    have ha : a < 256 := h a (by simp)
    have hb : b < 256 := h b (by simp)
    have hc : c < 256 := h c (by simp)
    have hmoda : a % 256 = a := Nat.mod_eq_of_lt ha
    have hmodb : b % 256 = b := Nat.mod_eq_of_lt hb
    have hmodc : c % 256 = c := Nat.mod_eq_of_lt hc
    have htail := b64Decode_b64Encode rest (fun x hx => h x (by simp [hx]))
    have hd1 := b64DecChar_b64EncChar ((a * 65536 + b * 256 + c) / 262144) (by omega)
    have hd2 := b64DecChar_b64EncChar ((a * 65536 + b * 256 + c) / 4096 % 64) (by omega)
    have hd3 := b64DecChar_b64EncChar ((a * 65536 + b * 256 + c) / 64 % 64) (by omega)
    have hd4 := b64DecChar_b64EncChar ((a * 65536 + b * 256 + c) % 64) (by omega)
    have hne3 := b64EncChar_ne_pad ((a * 65536 + b * 256 + c) / 64 % 64) (by omega)
    have hne4 := b64EncChar_ne_pad ((a * 65536 + b * 256 + c) % 64) (by omega)
    simp [b64Encode, hmoda, hmodb, hmodc, b64Decode, hne3, hne4,
      hd1, hd2, hd3, hd4, htail]
    omega

/-- Every character the base64 encoder emits is ASCII. -/
theorem b64Encode_toNat_lt : ∀ l : List Nat, ∀ ch ∈ b64Encode l, ch.toNat < 256
  | [] => by intro ch hc; simp [b64Encode] at hc
  | [a] => by
    intro ch hc
    simp only [b64Encode, List.mem_cons, List.not_mem_nil, or_false] at hc
    rcases hc with rfl | rfl | rfl | rfl
    · exact b64EncChar_toNat_lt _ (by omega)
    · exact b64EncChar_toNat_lt _ (by omega)
    · decide
    · decide
  | [a, b] => by
    intro ch hc
    simp only [b64Encode, List.mem_cons, List.not_mem_nil, or_false] at hc
    rcases hc with rfl | rfl | rfl | rfl
    · exact b64EncChar_toNat_lt _ (by omega)
    · exact b64EncChar_toNat_lt _ (by omega)
    · exact b64EncChar_toNat_lt _ (by omega)
    · decide
  | a :: b :: c :: rest => by
    intro ch hc
    simp only [b64Encode, List.mem_cons] at hc
    rcases hc with rfl | rfl | rfl | rfl | hc
    · exact b64EncChar_toNat_lt _ (by omega)
    · exact b64EncChar_toNat_lt _ (by omega)
    · exact b64EncChar_toNat_lt _ (by omega)
    · exact b64EncChar_toNat_lt _ (by omega)
    · exact b64Encode_toNat_lt rest ch hc

/-- The hex-encode → hex-to-ASCII chain restores ASCII text. -/
theorem hexToASCII_stringToHexText (s : String) (h : ∀ c ∈ s.data, c.toNat < 256) :
    hexToASCII (stringToHexText s) = s := by
  have hmap : ∀ x ∈ s.data.map Char.toNat, x < 256 := by
    intro x hx
    rcases List.mem_map.mp hx with ⟨c, hc, rfl⟩
    exact h c hc
  simp only [hexToASCII, stringToHexText, hexDecode_bytesToHex _ hmap, bytesToString,
    List.map_map]
  have hid : s.data.map (fun c => Char.ofNat (c.toNat % 256)) = s.data := by
    refine List.map_congr_left (fun c hc => ?_) |>.trans (List.map_id s.data)
    rw [Nat.mod_eq_of_lt (h c hc), Char.ofNat_toNat]
    rfl
  show String.mk (s.data.map fun c => Char.ofNat (c.toNat % 256)) = s
  rw [hid]

/-! ## C4 — both lease-URI entry points agree on the same bytes -/

/-- C4: for every byte sequence `B`, `decodeLeaseNftUri` on the hex encoding
of `B` and `decodeLeaseTokenUri` on the hex-encoded ASCII text of the base64
encoding of `B` return identical descriptors (equal `leaseIndex`, equal
`halfTos` bytes, equal `leaseAmount`). -/
theorem lease_decoders_agree (xflToString : Int → String) (B : List Nat)
    (h : ∀ x ∈ B, x < 256) :
    decodeLeaseNftUri xflToString (bytesToHex B) =
      decodeLeaseTokenUri xflToString (stringToHexText (String.mk (b64Encode B))) := by
  have h1 : hexDecode (bytesToHex B) = B := hexDecode_bytesToHex B h
  have h2 : hexToASCII (stringToHexText (String.mk (b64Encode B))) = String.mk (b64Encode B) :=
    hexToASCII_stringToHexText _ (fun c hc => b64Encode_toNat_lt B c hc)
  have h3 : b64Decode (String.mk (b64Encode B)).data = B := b64Decode_b64Encode B h
  simp only [decodeLeaseNftUri, decodeLeaseTokenUri, h1, h2, h3]

theorem lease_decoders_agree_witness :
    decodeLeaseNftUri intToString (bytesToHex leaseUriBytes) =
      decodeLeaseTokenUri intToString
        (stringToHexText (String.mk (b64Encode leaseUriBytes))) :=
  lease_decoders_agree intToString leaseUriBytes (by decide)

/-! ## C5 — the hook-state index is the truncated digest of a fixed layout -/

/-- C5: `getHookStateIndex` returns the first 32 bytes of the digest of
`ledgerEntryTypeTag(2 bytes, [0, 118]) ‖ decoded account id ‖ state-key
bytes ‖ namespace bytes`, in that order, as 64 upper-case hex characters.
Determinism is immediate: the embedding is a pure function of its inputs, so
equal inputs give equal output. -/
theorem getHookStateIndex_is_truncated_digest (sha512 : List Nat → List Nat)
    (codec : AddrCodec) (hookAccount stateKey hookNamespace : String) :
    getHookStateIndex sha512 codec hookAccount stateKey hookNamespace =
      bytesToHexUpper ((sha512 ([0, 118] ++ codec.decodeAccountID hookAccount ++
        hexDecode stateKey ++ hexDecode hookNamespace)).take 32) := by
  have htype : [HOOK_STATE_LEDGER_TYPE_PFX / 2 ^ 8 % 256, HOOK_STATE_LEDGER_TYPE_PFX % 256] =
      ([0, 118] : List Nat) := by decide
  simp only [getHookStateIndex, htype, jsSubstring, bytesToHex, List.drop_zero]
  show jsToUpperCase (String.mk ((bytesToHexChars
    (sha512 ([0, 118] ++ codec.decodeAccountID hookAccount ++
      hexDecode stateKey ++ hexDecode hookNamespace))).take 64)) = _
  rw [show (64 : Nat) = 2 * 32 from rfl, bytesToHexChars_take]
  exact jsToUpperCase_bytesToHex _

/-! ## C6 — address-keyed state keys: fixed prefix, tag, zeros, account id -/

/-- The shared layout of the three address-keyed `generate*StateKey`
functions, over the decoded account id `acc` and the kind tag `t`. -/
theorem generate_key_layout_generic (acc : List Nat) (t : Nat)
    (_hlen : acc.length = 20) (hbytes : ∀ x ∈ acc, x < 256) (ht : t < 256) :
    jsToUpperCase (bytesToHex (EVERNODE_PFX ++ (t :: List.replicate 8 0) ++ acc)) =
      bytesToHexUpper ([69, 86, 82] ++ [t] ++ List.replicate 8 0 ++ acc) ∧
    (hexDecode (jsToUpperCase (bytesToHex (EVERNODE_PFX ++ (t :: List.replicate 8 0) ++ acc)))).take 4 =
      [69, 86, 82, t] ∧
    (hexDecode (jsToUpperCase (bytesToHex (EVERNODE_PFX ++ (t :: List.replicate 8 0) ++ acc)))).drop 12 =
      acc := by
  have hassoc : EVERNODE_PFX ++ (t :: List.replicate 8 0) ++ acc =
      [69, 86, 82] ++ [t] ++ List.replicate 8 0 ++ acc := by
    simp [EVERNODE_PFX]
  have hall : ∀ x ∈ EVERNODE_PFX ++ (t :: List.replicate 8 0) ++ acc, x < 256 := by
    intro x hx
    simp only [EVERNODE_PFX, List.mem_append, List.mem_cons, List.mem_replicate] at hx
    rcases hx with (hx | rfl | hx) | hx
    · simp at hx; omega
    · exact ht
    · omega
    · exact hbytes x hx
  refine ⟨by rw [jsToUpperCase_bytesToHex, hassoc], ?_, ?_⟩ <;>
    rw [jsToUpperCase_bytesToHex, hexDecode_bytesToHexUpper _ hall] <;>
    simp [EVERNODE_PFX, List.replicate]

/-- C6: each of `generateHostAddrStateKey`, `generateTransfereeAddrStateKey`
and `generateCandidateOwnerStateKey` returns the upper-case hex of the
32-byte key `'EVR'(3) ‖ kindTag(1) ‖ zeroPad(8) ‖ accountId(20)`; in
particular the first 4 bytes equal the kind's fixed prefix and the last 20
bytes equal the decoded account id. -/
theorem generate_address_state_keys_layout (codec : AddrCodec) (A : String)
    (hlen : (codec.decodeAccountID A).length = 20)
    (hbytes : ∀ x ∈ codec.decodeAccountID A, x < 256) :
    (generateHostAddrStateKey codec A =
        bytesToHexUpper ([69, 86, 82] ++ [STATE_KEY_TYPES.HOST_ADDR] ++
          List.replicate 8 0 ++ codec.decodeAccountID A) ∧
      (hexDecode (generateHostAddrStateKey codec A)).take 4 =
        hexDecode HookStateKeys.PREFIX_HOST_ADDR ∧
      (hexDecode (generateHostAddrStateKey codec A)).drop 12 = codec.decodeAccountID A) ∧
    (generateTransfereeAddrStateKey codec A =
        bytesToHexUpper ([69, 86, 82] ++ [STATE_KEY_TYPES.TRANSFEREE_ADDR] ++
          List.replicate 8 0 ++ codec.decodeAccountID A) ∧
      (hexDecode (generateTransfereeAddrStateKey codec A)).take 4 =
        hexDecode HookStateKeys.PREFIX_TRANSFEREE_ADDR ∧
      (hexDecode (generateTransfereeAddrStateKey codec A)).drop 12 = codec.decodeAccountID A) ∧
    (generateCandidateOwnerStateKey codec A =
        bytesToHexUpper ([69, 86, 82] ++ [STATE_KEY_TYPES.CANDIDATE_OWNER] ++
          List.replicate 8 0 ++ codec.decodeAccountID A) ∧
      (hexDecode (generateCandidateOwnerStateKey codec A)).take 4 =
        hexDecode HookStateKeys.PREFIX_CANDIDATE_OWNER ∧
      (hexDecode (generateCandidateOwnerStateKey codec A)).drop 12 = codec.decodeAccountID A) := by
  have h3 := generate_key_layout_generic (codec.decodeAccountID A) 3 hlen hbytes (by omega)
  have h4 := generate_key_layout_generic (codec.decodeAccountID A) 4 hlen hbytes (by omega)
  have h5 := generate_key_layout_generic (codec.decodeAccountID A) 5 hlen hbytes (by omega)
  refine ⟨⟨h3.1, ?_, h3.2.2⟩, ⟨h4.1, ?_, h4.2.2⟩, ⟨h5.1, ?_, h5.2.2⟩⟩
  · rw [show hexDecode HookStateKeys.PREFIX_HOST_ADDR = [69, 86, 82, 3] from rfl]
    exact h3.2.1
  · rw [show hexDecode HookStateKeys.PREFIX_TRANSFEREE_ADDR = [69, 86, 82, 4] from rfl]
    exact h4.2.1
  · rw [show hexDecode HookStateKeys.PREFIX_CANDIDATE_OWNER = [69, 86, 82, 5] from rfl]
    exact h5.2.1

theorem generate_address_state_keys_layout_witness :
    (hexCodec.decodeAccountID "000102030405060708090A0B0C0D0E0F10111213").length = 20 ∧
    (hexDecode (generateHostAddrStateKey hexCodec "000102030405060708090A0B0C0D0E0F10111213")).drop 12 =
      hexCodec.decodeAccountID "000102030405060708090A0B0C0D0E0F10111213" :=
  ⟨by decide, (generate_address_state_keys_layout hexCodec
      "000102030405060708090A0B0C0D0E0F10111213" (by decide) (by decide)).1.2.2⟩

/-! ## In-range read equations -/

theorem readBigUInt64BE_of_le (b : List Nat) (off : Nat) (h : off + 8 ≤ b.length) :
    readBigUInt64BE b off = some (be64At b off) := by
  unfold readBigUInt64BE; rw [if_pos h]

theorem readUInt32BE_of_le (b : List Nat) (off : Nat) (h : off + 4 ≤ b.length) :
    readUInt32BE b off = some (byteAt b off * 2 ^ 24 + byteAt b (off + 1) * 2 ^ 16 +
      byteAt b (off + 2) * 2 ^ 8 + byteAt b (off + 3)) := by
  unfold readUInt32BE; rw [if_pos h]

theorem readUInt8_of_le (b : List Nat) (off : Nat) (h : off + 1 ≤ b.length) :
    readUInt8 b off = some (byteAt b off) := by
  unfold readUInt8; rw [if_pos h]

/-! ## C3 (amended) — the lease amount is `parseFloat` of the codec string -/

/-- C3 (amended): on every successful decode, the `leaseAmount` field is the
JS number `parseFloat(s)` where `s` is the base-10 decimal string the
external scaled-decimal codec produced from the 64-bit scaled value read at
the amount offset — not the string itself. -/
theorem leaseAmount_is_parseFloat_of_codec_string (xflToString : Int → String)
    (u : String) (d : LeaseDesc) :
    (decodeLeaseNftUri xflToString u = some d →
      ∃ v, readBigInt64BE (hexDecode u) (LEASE_TOKEN_PREFIX_HEX.length / 2 + 2 + 16) = some v ∧
        d.leaseAmount = jsParseFloat (xflToString v)) ∧
    (decodeLeaseTokenUri xflToString u = some d →
      ∃ v, readBigInt64BE (b64Decode (hexToASCII u).data)
          (LEASE_TOKEN_PREFIX_HEX.length / 2 + 2 + 16) = some v ∧
        d.leaseAmount = jsParseFloat (xflToString v)) := by
  constructor
  · intro hdec
    simp only [decodeLeaseNftUri, Option.bind_eq_bind, Option.bind_eq_some,
      Option.some.injEq] at hdec
    obtain ⟨li, _, v, hv, hrec⟩ := hdec
    exact ⟨v, hv, by rw [← hrec]⟩
  · intro hdec
    simp only [decodeLeaseTokenUri, Option.bind_eq_bind, Option.bind_eq_some,
      Option.some.injEq] at hdec
    obtain ⟨li, _, v, hv, hrec⟩ := hdec
    exact ⟨v, hv, by rw [← hrec]⟩

theorem leaseAmount_is_parseFloat_of_codec_string_witness :
    ∃ v, readBigInt64BE (hexDecode (bytesToHex leaseUriBytes))
        (LEASE_TOKEN_PREFIX_HEX.length / 2 + 2 + 16) = some v ∧
      (LeaseDesc.mk 1 [16, 17, 18, 19, 20, 21] (.num "42")).leaseAmount =
        jsParseFloat (intToString v) :=
  (leaseAmount_is_parseFloat_of_codec_string intToString (bytesToHex leaseUriBytes)
    (LeaseDesc.mk 1 [16, 17, 18, 19, 20, 21] (.num "42"))).1 rfl

/-! ## C7 — the optional registration timestamp is in fact always present -/

set_option maxRecDepth 20000 in
/-- C7 (counterexample): on a data buffer of exactly the mandatory minimum
length — 125 bytes, since the reads up to offset 124 are unconditional — the
decoded record still carries `registrationTimestamp` (the guard
`data.length > 103` is implied by the mandatory reads), and one byte less
fails the decode altogether; the claim says the field is omitted at exactly
the minimum length. -/
theorem decodeHostAddressState_min_buffer_has_timestamp :
    ((decodeHostAddressState hexCodec
        (hexDecode HookStateKeys.PREFIX_HOST_ADDR ++ List.replicate 28 0)
        (List.replicate 125 0)).map (fun r => r.registrationTimestamp)) = some (some 0) ∧
    decodeHostAddressState hexCodec
        (hexDecode HookStateKeys.PREFIX_HOST_ADDR ++ List.replicate 28 0)
        (List.replicate 124 0) = none :=
  ⟨rfl, rfl⟩

/-- C7 (amended): `decodeHostAddressState` succeeds exactly on buffers of at
least the mandatory minimum length 125, and every record it returns —
including one decoded from a buffer of exactly that length — contains
`registrationTimestamp` equal to the big-endian unsigned 64-bit integer at
offset 103; the field is never omitted from a successful decode. -/
theorem decodeHostAddressState_timestamp_always_present (codec : AddrCodec)
    (stateKeyBuf stateDataBuf : List Nat) (h : 125 ≤ stateDataBuf.length) :
    ∃ r, decodeHostAddressState codec stateKeyBuf stateDataBuf = some r ∧
      r.registrationTimestamp = some (be64At stateDataBuf 103) := by
  have hgt : stateDataBuf.length > 103 := by omega
  simp (disch := omega) only [decodeHostAddressState,
    HOST_REG_LEDGER_OFFSET, HOST_REG_FEE_OFFSET, HOST_TOT_INS_COUNT_OFFSET,
    HOST_ACT_INS_COUNT_OFFSET, HOST_HEARTBEAT_TIMESTAMP_OFFSET, HOST_VERSION_OFFSET,
    HOST_TRANSFER_FLAG_OFFSET, HOST_LAST_VOTE_CANDIDATE_IDX_OFFSET,
    HOST_LAST_VOTE_TIMESTAMP_OFFSET, HOST_SUPPORT_VOTE_FLAG_OFFSET,
    HOST_REG_TIMESTAMP_OFFSET,
    readBigUInt64BE_of_le, readUInt32BE_of_le, readUInt8_of_le,
    Option.bind_eq_bind, Option.some_bind, hgt, if_true]
  exact ⟨_, rfl, rfl⟩

theorem decodeHostAddressState_timestamp_always_present_witness :
    ∃ r, decodeHostAddressState hexCodec [] (List.replicate 125 7) = some r ∧
      r.registrationTimestamp = some (be64At (List.replicate 125 7) 103) :=
  decodeHostAddressState_timestamp_always_present hexCodec [] (List.replicate 125 7)
    (by simp)

/-! ## C10 — `extendLease` always watches with the default timeout -/

/-- C10: `extendLease` passes `minLedgerIndex` as the second argument of
`watchExtendResponse`, which occupies that function's `options` parameter, so
the caller-supplied options object (including `options.timeout`) is never
forwarded to the watch; the armed timeout is always the default 60000 ms. -/
theorem extendLease_watch_uses_default_timeout (minLedgerIndex : Int) (options : JsVal) :
    watchExtendResponseTimeout (extendLeaseWatchOptionsArg minLedgerIndex options) =
      .num 60000 := by
  rfl

/-! ## C9 — an explicit `leaseOfferIndex` can never select an offer -/

/-- C9: whenever `options.leaseOfferIndex` is set (truthy), the offer lookup
of `acquireLeaseSubmit` never selects any offer — the `find` callback's
braced arrow body returns `undefined` for every element — so the call throws
`{reason: NO_OFFER, error: 'No offers available.'}` even when the host has an
available offer whose index equals `options.leaseOfferIndex`. -/
theorem acquireLeaseSubmit_indexed_lookup_always_fails
    (uriTokenOffers : List UriOffer) (options : JsVal) (o : UriOffer)
    (hset : jsTruthy (jsGet options "leaseOfferIndex") = true)
    (_havail : o ∈ uriTokenOffers)
    (_hmatch : JsVal.str o.index = jsGet options "leaseOfferIndex") :
    acquireLeaseSelectOffer uriTokenOffers options =
      .error { reason := "NO_OFFER", error := "No offers available." } := by
  have hfind : uriTokenOffers.find? (fun uriOffer =>
      jsTruthy (acquireOfferFindCallback uriOffer (jsGet options "leaseOfferIndex"))) = none :=
    List.find?_eq_none.mpr (fun x _ => by simp [acquireOfferFindCallback, jsTruthy])
  simp [acquireLeaseSelectOffer, hset, hfind]

theorem acquireLeaseSubmit_indexed_lookup_always_fails_witness :
    acquireLeaseSelectOffer [{ index := "AB01" }]
        (.obj [("leaseOfferIndex", .str "AB01")]) =
      .error { reason := "NO_OFFER", error := "No offers available." } :=
  acquireLeaseSubmit_indexed_lookup_always_fails
    [{ index := "AB01" }] (.obj [("leaseOfferIndex", .str "AB01")])
    { index := "AB01" } (by rfl) (by simp) (by rfl)

/-! ## C1 — unrecognized keys are not rejected by `decodeStateKey` -/

/-- C1 (defect): the 32-byte key of `FF` bytes matches none of the five
4-byte prefixes and none of the well-known Singleton/Configuration keys, yet
`decodeStateKey` returns a `configuration` key-info instead of throwing the
Validation Error: the `HOST_HEARTBEAT_FREQ` comparison on source line 477
lacks `=== 0`, so its raw nonzero compare result is truthy for every key
other than that one.  `decodeStateData`, whose comparisons all carry
`=== 0`, does throw on the same key, for any data. -/
theorem decodeStateKey_accepts_unknown_key :
    decodeStateKey (List.replicate 32 255) =
      .ok { key := String.mk (List.replicate 64 'F'), type := "configuration" } ∧
    decodeStateData hexCodec intToString zeroHash64 (List.replicate 32 255) [] =
      .error (.validation "Invalid state key.") := by
  exact ⟨rfl, rfl⟩

/-! ## C2 — the half-hash slice is truncated by the off-by-window bound -/

/-- C2 (defect): on a well-formed lease URI the decoder's `halfTos` is
`uriBuf.slice(prefixLen + 2, 16)` — the slice end does not account for the
start offset — so it captures bytes `[10, 16)` (6 bytes), not the 16 bytes
`[10, 26)` immediately following the lease index, contradicting the code's
own layout comment `<half of tos hash (16 bytes)>`.  Both entry points
truncate identically. -/
theorem decodeLeaseUri_halfTos_truncated :
    decodeLeaseNftUri intToString (bytesToHex leaseUriBytes) =
      some { leaseIndex := 1, halfTos := [16, 17, 18, 19, 20, 21],
             leaseAmount := .num "42" } ∧
    decodeLeaseTokenUri intToString (stringToHexText (String.mk (b64Encode leaseUriBytes))) =
      some { leaseIndex := 1, halfTos := [16, 17, 18, 19, 20, 21],
             leaseAmount := .num "42" } ∧
    bufSlice leaseUriBytes 10 26 =
      [16, 17, 18, 19, 20, 21, 22, 23, 24, 25, 26, 27, 28, 29, 30, 31] ∧
    ([16, 17, 18, 19, 20, 21] : List Nat) ≠ bufSlice leaseUriBytes 10 26 := by
  refine ⟨rfl, rfl, rfl, by decide⟩

/-! ## C3 — the lease amount is converted to a number, not kept a string -/

/-- C3 (counterexample): on a well-formed lease URI the `leaseAmount` field
produced by both decoders is not a string — `parseFloat` is applied to the
codec's decimal string. -/
theorem leaseAmount_is_not_a_string :
    ((decodeLeaseNftUri intToString (bytesToHex leaseUriBytes)).map
      (fun d => d.leaseAmount.isStr)) = some false ∧
    ((decodeLeaseTokenUri intToString
        (stringToHexText (String.mk (b64Encode leaseUriBytes)))).map
      (fun d => d.leaseAmount.isStr)) = some false := by
  exact ⟨rfl, rfl⟩

end Evernode
